import Mathlib

set_option linter.unusedVariables false
set_option linter.unnecessarySeqFocus false
set_option maxRecDepth 8192
set_option allowUnsafeReducibility true
attribute [semireducible] Rat.add Rat.sub Rat.mul Rat.inv

/-!
Verification development for the pyxl_validator core
(value normalization, validator strategies, row diff orchestration,
diff consumer and comparison summary), shallowly embedded from
`src/pyxl_validator/*.py`.

Modelling conventions:
* Python cell values are the inductive `Value` (None, bool, int, float,
  str, date, datetime).
* Python floats are `PyFloat`: an exact rational for finite doubles plus
  the special values nan / inf / -inf.  Arithmetic on finite floats is
  modelled exactly (rational semantics); conversion of parsed numeric
  strings applies the IEEE-754 double overflow rule, so string parsing
  can produce infinities exactly as `float(str)` does.
* Python code that can raise is embedded in `Except String`; code that
  cannot raise (or catches every exception, like `BoolValidator.compare`)
  is a plain function.
-/

-- ============================================================
-- Python value model
-- ============================================================

/-- Python float: finite doubles are carried as exact rationals;
nan, inf and -inf are separate constructors. -/
inductive PyFloat where
  | finite (q : ℚ)
  | nan
  | inf
  | ninf
deriving DecidableEq, Repr

/-- A `datetime.date` value (year, month, day). -/
structure PyDate where
  year : ℕ
  month : ℕ
  day : ℕ
deriving DecidableEq, Repr

/-- A naive `datetime.datetime` value. -/
structure PyDateTime where
  year : ℕ
  month : ℕ
  day : ℕ
  hour : ℕ
  minute : ℕ
  second : ℕ
  microsecond : ℕ
deriving DecidableEq, Repr

/-- The cell value domain: None, booleans, integers, floats
(including nan and infinities), strings, dates and datetimes. -/
inductive Value where
  | none
  | bool (b : Bool)
  | int (n : ℤ)
  | float (f : PyFloat)
  | str (s : String)
  | date (d : PyDate)
  | datetime (t : PyDateTime)
deriving DecidableEq, Repr

-- ============================================================
-- Float arithmetic helpers
-- ============================================================

/-- Smallest magnitude at which rounding a real to the nearest IEEE-754
double overflows to infinity.  The numeral equals `2^1024 - 2^970`,
written out so that evaluation needs no deep exponentiation. -/
def doubleOverflowBound : ℚ := 179769313486231580793728971405303415079934132710037826936173778980444968292764750946649017977587207096330286416692887910946555547851940402630657488671505820681908902000708383676273854845817711531764475730270069855571366959622842914819860834936475292719074168444365510704342711559699508093042880177904174497792

/-- Conversion of an exact parsed decimal magnitude to a Python float:
magnitudes at or beyond the double range become infinities, as in
`float(str)`; finite magnitudes are kept exact. -/
def pyFloatOfRat (q : ℚ) : PyFloat :=
  if doubleOverflowBound ≤ q then PyFloat.inf
  else if q ≤ -doubleOverflowBound then PyFloat.ninf
  else PyFloat.finite q

/-- Python `==` on floats: nan compares unequal to everything
(itself included). -/
def PyFloat.pyBeq : PyFloat → PyFloat → Bool
  | .finite a, .finite b => decide (a = b)
  | .inf, .inf => true
  | .ninf, .ninf => true
  | _, _ => false

/-- Python `<=` on floats: any comparison with nan is false. -/
def PyFloat.pyLe : PyFloat → PyFloat → Bool
  | .nan, _ => false
  | _, .nan => false
  | .ninf, _ => true
  | .finite _, .ninf => false
  | .inf, .ninf => false
  | _, .inf => true
  | .finite a, .finite b => decide (a ≤ b)
  | .inf, .finite _ => false

/-- Python `float.is_integer`. -/
def PyFloat.isInteger : PyFloat → Bool
  | .finite q => decide (q.den = 1)
  | _ => false

/-- Truncation toward zero, as Python `int(float)` on finite floats. -/
def ratTrunc (q : ℚ) : ℤ :=
  if 0 ≤ q.num then ((q.num.toNat / q.den : ℕ) : ℤ)
  else -(((-q.num).toNat / q.den : ℕ) : ℤ)

/-- Floor of a rational. -/
def ratFloor (q : ℚ) : ℤ :=
  if 0 ≤ q.num then ratTrunc q
  else if (-q.num).toNat % q.den = 0 then ratTrunc q
  else ratTrunc q - 1

/-- Round to the nearest integer, ties to even (Python `round`). -/
def intRoundHalfEven (q : ℚ) : ℤ :=
  let f := ratFloor q
  let r := q - (f : ℚ)
  if r < 1 / 2 then f
  else if 1 / 2 < r then f + 1
  else if f % 2 = 0 then f else f + 1

/-- `10 ^ p` for an integer exponent. -/
def pow10 (p : ℤ) : ℚ :=
  if 0 ≤ p then (10 : ℚ) ^ p.toNat else ((10 : ℚ) ^ (-p).toNat)⁻¹

/-- Python `round(q, p)` on an exact rational. -/
def roundRat (q : ℚ) (p : ℤ) : ℚ :=
  (intRoundHalfEven (q * pow10 p) : ℚ) / pow10 p

/-- Python `round(x, p)` on floats: rounding propagates the specials. -/
def PyFloat.pyRound : PyFloat → ℤ → PyFloat
  | .finite q, p => .finite (roundRat q p)
  | .nan, _ => .nan
  | .inf, _ => .inf
  | .ninf, _ => .ninf

/-- Subtract a finite delta from a float. -/
def PyFloat.subQ : PyFloat → ℚ → PyFloat
  | .finite a, d => .finite (a - d)
  | .nan, _ => .nan
  | .inf, _ => .inf
  | .ninf, _ => .ninf

/-- Add a finite delta to a float. -/
def PyFloat.addQ : PyFloat → ℚ → PyFloat
  | .finite a, d => .finite (a + d)
  | .nan, _ => .nan
  | .inf, _ => .inf
  | .ninf, _ => .ninf

-- ============================================================
-- Python equality and type identity on values
-- ============================================================

/-- Numeric value of a Python bool. -/
def boolToRat (b : Bool) : ℚ := if b then 1 else 0

/-- Python `==` on the cell value domain.  Numeric kinds (bool, int,
float) compare across kinds by numeric value; nan is unequal to
everything; values of unrelated types compare unequal. -/
def pyEq : Value → Value → Bool
  | .none, .none => true
  | .bool a, .bool b => a == b
  | .bool a, .int n => decide ((if a then (1 : ℤ) else 0) = n)
  | .int n, .bool a => decide (n = (if a then (1 : ℤ) else 0))
  | .bool a, .float f => PyFloat.pyBeq (.finite (boolToRat a)) f
  | .float f, .bool a => PyFloat.pyBeq f (.finite (boolToRat a))
  | .int m, .int n => decide (m = n)
  | .int n, .float f => PyFloat.pyBeq (.finite (n : ℚ)) f
  | .float f, .int n => PyFloat.pyBeq f (.finite (n : ℚ))
  | .float f, .float g => f.pyBeq g
  | .str a, .str b => a == b
  | .date a, .date b => decide (a = b)
  | .datetime a, .datetime b => decide (a = b)
  | _, _ => false

/-- Tag of the Python runtime type of a value (`type(v)`). -/
def pyTypeTag : Value → ℕ
  | .none => 0
  | .bool _ => 1
  | .int _ => 2
  | .float _ => 3
  | .str _ => 4
  | .date _ => 5
  | .datetime _ => 6

/-- Python `type(v1) == type(v2)`. -/
def pyTypeEq (v1 v2 : Value) : Bool := pyTypeTag v1 == pyTypeTag v2

/-- True when the value is not a nan or infinite float. -/
def isFiniteValue : Value → Bool
  | .float .nan => false
  | .float .inf => false
  | .float .ninf => false
  | _ => true

-- ============================================================
-- String helpers (Python str methods over char lists)
-- ============================================================

/-- Whitespace stripped by Python `str.strip()` (ASCII subset). -/
def pyIsSpace (c : Char) : Bool :=
  c = ' ' || c = '\t' || c = '\n' || c = '\r' ||
  c = Char.ofNat 11 || c = Char.ofNat 12

/-- Python `str.strip()`. -/
def stripChars (cs : List Char) : List Char :=
  ((cs.dropWhile pyIsSpace).reverse.dropWhile pyIsSpace).reverse

/-- Python `str.lower()` (ASCII letters; other characters unchanged). -/
def lowerChars (cs : List Char) : List Char := cs.map Char.toLower

/-- Python `pat in s` (substring containment). -/
def containsSub (pat : List Char) : List Char → Bool
  | [] => pat.isEmpty
  | c :: rest => pat.isPrefixOf (c :: rest) || containsSub pat rest

/-- Fueled worker for `replaceSub`; the fuel always covers the input
length, so the `0` case is unreachable. -/
def replaceSubAux (pat rep : List Char) : ℕ → List Char → List Char
  | 0, s => s
  | _, [] => []
  | n + 1, c :: rest =>
    if !pat.isEmpty && pat.isPrefixOf (c :: rest) then
      rep ++ replaceSubAux pat rep n ((c :: rest).drop pat.length)
    else
      c :: replaceSubAux pat rep n rest

/-- Python `str.replace(pat, rep)`: non-overlapping, left to right. -/
def replaceSub (pat rep s : List Char) : List Char :=
  replaceSubAux pat rep s.length s

/-- `strip().lower()` of a string, as a string. -/
def pyStripLower (s : String) : String :=
  String.mk (lowerChars (stripChars s.data))

-- ============================================================
-- Numeric string parsing
-- ============================================================

/-- Numeric value of a decimal digit character. -/
def digitVal (c : Char) : ℕ := c.toNat - 48

/-- Value of a list of decimal digit characters. -/
def digitsToNat (cs : List Char) : ℕ :=
  cs.foldl (fun a c => 10 * a + digitVal c) 0

/-- Full match of `PYTHON_INT_REGEX` (`[+-]?\d+` anchored) together
with Python `int(str)` on the matched text. -/
def matchIntChars (cs : List Char) : Option ℤ :=
  match cs with
  | '+' :: rest =>
    if !rest.isEmpty && rest.all Char.isDigit then some (digitsToNat rest) else Option.none
  | '-' :: rest =>
    if !rest.isEmpty && rest.all Char.isDigit then some (-(digitsToNat rest : ℤ)) else Option.none
  | _ =>
    if !cs.isEmpty && cs.all Char.isDigit then some (digitsToNat cs) else Option.none

/-- Exponent suffix of `PYTHON_FLOAT_REGEX` (`([eE][+-]?\d+)?` anchored
at the end): the empty remainder means exponent 0; anything else must be
a full exponent group. -/
def expSuffix : List Char → Option ℤ
  | [] => some 0
  | c :: rest =>
    if c = 'e' || c = 'E' then
      match rest with
      | '+' :: ds => if !ds.isEmpty && ds.all Char.isDigit then some (digitsToNat ds) else Option.none
      | '-' :: ds => if !ds.isEmpty && ds.all Char.isDigit then some (-(digitsToNat ds : ℤ)) else Option.none
      | ds => if !ds.isEmpty && ds.all Char.isDigit then some (digitsToNat ds) else Option.none
    else Option.none

/-- Full match of `PYTHON_FLOAT_REGEX`
(`[+-]?(\d+\.\d*|\.\d+|\d+)([eE][+-]?\d+)?` anchored) together with the
exact decimal value of the matched text. -/
def matchFloatChars (cs : List Char) : Option ℚ :=
  let (sgn, cs1) : ℚ × List Char :=
    match cs with
    | '+' :: r => (1, r)
    | '-' :: r => (-1, r)
    | _ => (1, cs)
  let ds := cs1.takeWhile Char.isDigit
  let rest1 := cs1.dropWhile Char.isDigit
  match rest1 with
  | '.' :: r2 =>
    let fs := r2.takeWhile Char.isDigit
    let rest2 := r2.dropWhile Char.isDigit
    if ds.isEmpty && fs.isEmpty then Option.none
    else
      match expSuffix rest2 with
      | some e =>
        some (sgn * ((digitsToNat ds : ℚ) + (digitsToNat fs : ℚ) / (10 : ℚ) ^ fs.length) * pow10 e)
      | Option.none => Option.none
  | _ =>
    if ds.isEmpty then Option.none
    else
      match expSuffix rest1 with
      | some e => some (sgn * (digitsToNat ds : ℚ) * pow10 e)
      | Option.none => Option.none

-- ============================================================
-- ISO date-time parsing (datetime.fromisoformat, basic format)
-- ============================================================

/-- Exactly `n` decimal digits, returning their value and the rest. -/
def digitsN (n : ℕ) (cs : List Char) : Option (ℕ × List Char) :=
  let ds := cs.take n
  if ds.length = n && ds.all Char.isDigit then some (digitsToNat ds, cs.drop n)
  else Option.none

/-- One expected character. -/
def expectChar (c : Char) : List Char → Option (List Char)
  | x :: rest => if x = c then some rest else Option.none
  | [] => Option.none

/-- Gregorian leap year test. -/
def isLeapYear (y : ℕ) : Bool := y % 4 = 0 && (y % 100 ≠ 0 || y % 400 = 0)

/-- Days in a month. -/
def daysInMonth (y m : ℕ) : ℕ :=
  if m = 2 then (if isLeapYear y then 29 else 28)
  else if m = 4 || m = 6 || m = 9 || m = 11 then 30
  else 31

/-- Time-of-day suffix `HH:MM[:SS[.f{1,6}]]` of an ISO date-time. -/
def parseIsoTime (cs : List Char) : Option (ℕ × ℕ × ℕ × ℕ) := do
  let (h, cs) ← digitsN 2 cs
  let cs ← expectChar ':' cs
  let (mi, cs) ← digitsN 2 cs
  if h ≥ 24 || mi ≥ 60 then failure
  match cs with
  | [] => pure (h, mi, 0, 0)
  | ':' :: cs2 => do
    let (s, cs3) ← digitsN 2 cs2
    if s ≥ 60 then failure
    match cs3 with
    | [] => pure (h, mi, s, 0)
    | '.' :: cs4 =>
      if !cs4.isEmpty && cs4.length ≤ 6 && cs4.all Char.isDigit then
        pure (h, mi, s, digitsToNat cs4 * 10 ^ (6 - cs4.length))
      else failure
    | _ => failure
  | _ => failure

/-- `datetime.fromisoformat` on the dash-separated basic format
`YYYY-MM-DD[(T| )HH:MM[:SS[.f{1,6}]]]`; anything else fails (the
validators only catch the failure, they never look at other formats). -/
def fromIsoChars (cs : List Char) : Option PyDateTime := do
  let (y, cs) ← digitsN 4 cs
  let cs ← expectChar '-' cs
  let (m, cs) ← digitsN 2 cs
  let cs ← expectChar '-' cs
  let (d, cs) ← digitsN 2 cs
  if y < 1 || m < 1 || m > 12 || d < 1 || d > daysInMonth y m then failure
  match cs with
  | [] => pure ⟨y, m, d, 0, 0, 0, 0⟩
  | sep :: rest =>
    if sep = 'T' || sep = ' ' then do
      let (h, mi, s, us) ← parseIsoTime rest
      pure ⟨y, m, d, h, mi, s, us⟩
    else failure

deriving instance DecidableEq for Except

-- ============================================================
-- Comparison results (table_validator.ComparisonResult)
-- ============================================================

/-- Enum for cell comparison results. -/
inductive ComparisonResult where
  | EQUALS
  | MATCHING
  | ALMOST
  | ACCEPTED
  | OMITTED
  | DIFFERENT
  | CORRUPTED
  | SHORTER
  | LONGER
deriving DecidableEq, Repr

/-- The underlying IntEnum value of a comparison result. -/
def ComparisonResult.intValue : ComparisonResult → ℕ
  | .EQUALS => 0
  | .MATCHING => 1
  | .ALMOST => 2
  | .ACCEPTED => 3
  | .OMITTED => 4
  | .DIFFERENT => 8
  | .CORRUPTED => 9
  | .SHORTER => 10
  | .LONGER => 11

/-- The enum member name of a comparison result (`result.name`). -/
def ComparisonResult.name : ComparisonResult → String
  | .EQUALS => "EQUALS"
  | .MATCHING => "MATCHING"
  | .ALMOST => "ALMOST"
  | .ACCEPTED => "ACCEPTED"
  | .OMITTED => "OMITTED"
  | .DIFFERENT => "DIFFERENT"
  | .CORRUPTED => "CORRUPTED"
  | .SHORTER => "SHORTER"
  | .LONGER => "LONGER"

/-- `ComparisonResult.ok`: membership in the acceptable set. -/
def ComparisonResult.ok (r : ComparisonResult) : Bool :=
  r = .EQUALS || r = .MATCHING || r = .ALMOST || r = .ACCEPTED || r = .OMITTED

/-- `ComparisonResult.foul`: membership in the unacceptable set. -/
def ComparisonResult.foul (r : ComparisonResult) : Bool :=
  r = .DIFFERENT || r = .CORRUPTED

/-- `COLOR_MAP`: the explicitly mapped color pairs. -/
def COLOR_MAP : ComparisonResult → Option (String × String)
  | .EQUALS => some ("FFFFFF", "FFFFFF")
  | .MATCHING => some ("FFFFFF", "CCFFCC")
  | .ALMOST => some ("FFFFFF", "CCFFFF")
  | .ACCEPTED => some ("CCFF99", "FFFF99")
  | .OMITTED => some ("CCCCCC", "CCCCCC")
  | .DIFFERENT => some ("CCFFCC", "FF9999")
  | .CORRUPTED => some ("FF9999", "FF0000")
  | .SHORTER => some ("E0CCFF", "990000")
  | .LONGER => some ("660066", "FFFF99")

/-- `ComparisonResult.get_cell_colors`: `COLOR_MAP.get(result, gray pair)`. -/
def ComparisonResult.get_cell_colors (r : ComparisonResult) : String × String :=
  (COLOR_MAP r).getD ("DDDDDD", "DDDDDD")

-- ============================================================
-- Type detection functions (table_validator, module level)
-- ============================================================

/-- `GERMAN_DEZIM` module flag. -/
def GERMAN_DEZIM : Bool := true

/-- `BoolValidator.TRUE_VALUES`. -/
def TRUE_VALUES : List String := ["true", "=true()", "wahr", "1", "yes", "ja"]

/-- `BoolValidator.FALSE_VALUES`. -/
def FALSE_VALUES : List String := ["false", "=false()", "falsch", "0", "no", "nein"]

/-- `BoolValidator.BOOL_VALUES` (union of the two synonym sets). -/
def BOOL_VALUES : List String := TRUE_VALUES ++ FALSE_VALUES

/-- `_is_bool_like`: bool test by runtime type / synonym set / 0-1 test. -/
def isBoolLike : Value → Bool
  | .bool _ => true
  | .str s => BOOL_VALUES.contains (pyStripLower s)
  | .int n => decide (n = 0) || decide (n = 1)
  | .float f => f.pyBeq (.finite 0) || f.pyBeq (.finite 1)
  | _ => false

/-- `_is_date_then_normalize`: date-likeness with normalization to a
datetime (plain dates are combined with midnight; strings go through
`fromisoformat`). -/
def isDateThenNormalize : Value → Bool × Option PyDateTime
  | .datetime t => (true, some t)
  | .date d => (true, some ⟨d.year, d.month, d.day, 0, 0, 0, 0⟩)
  | .str s =>
    match fromIsoChars (stripChars s.data) with
    | some t => (true, some t)
    | Option.none => (false, Option.none)
  | _ => (false, Option.none)

/-- `_is_int_then_normalize`: integer-likeness with normalization.
For a float argument the source evaluates `int(val)` unconditionally,
which raises on nan (`ValueError`) and on infinities (`OverflowError`);
Python bools pass the `isinstance(val, int)` test. -/
def isIntThenNormalize : Value → Except String (Bool × ℤ)
  | .bool b => Except.ok (true, if b then 1 else 0)
  | .int n => Except.ok (true, n)
  | .float (.finite q) => Except.ok (decide (q.den = 1), ratTrunc q)
  | .float .nan => Except.error "ValueError: cannot convert float NaN to integer"
  | .float .inf => Except.error "OverflowError: cannot convert float infinity to integer"
  | .float .ninf => Except.error "OverflowError: cannot convert float infinity to integer"
  | .str s =>
    match matchIntChars (stripChars s.data) with
    | some n => Except.ok (true, n)
    | Option.none => Except.ok (false, 0)
  | _ => Except.ok (false, 0)

/-- The locale normalization pass of `_is_float_then_normalize` on an
already stripped and lowered character list. -/
def floatStringPass (val : List Char) : Option ℚ :=
  let waehrung := GERMAN_DEZIM &&
    (containsSub ['€'] val || containsSub ['e', 'u', 'r', 'o'] val || containsSub [','] val)
  let cleaned := replaceSub [' '] [] (replaceSub ['e', 'u', 'r', 'o'] [] (replaceSub ['€'] [] val))
  let cleaned := if waehrung then replaceSub [','] ['.'] (replaceSub ['.'] [] cleaned) else cleaned
  matchFloatChars cleaned

/-- `_is_float_then_normalize`: float-likeness with normalization;
strings go through the German decimal / currency pass. -/
def isFloatThenNormalize : Value → Bool × PyFloat
  | .float f => (true, f)
  | .bool b => (true, .finite (boolToRat b))
  | .int n => (true, .finite (n : ℚ))
  | .str s =>
    match floatStringPass (lowerChars (stripChars s.data)) with
    | some q => (true, pyFloatOfRat q)
    | Option.none => (false, .finite 0)
  | _ => (false, .finite 0)

/-- `_is_number_then_normalize`: integer-likeness first, float-likeness
second; the normalized result is re-wrapped as a value (Python returns
an int or a float). -/
def isNumberThenNormalize (v : Value) : Except String (Bool × Value) := do
  let (like, n) ← isIntThenNormalize v
  if like then
    Except.ok (true, Value.int n)
  else
    let (like2, f) := isFloatThenNormalize v
    Except.ok (like2, Value.float f)

-- ============================================================
-- Validator strategies (table_validator)
-- ============================================================

/-- `EqualValidator.compare`: plain `==`. -/
def EqualValidator.compare (val1 val2 : Value) : ComparisonResult :=
  if pyEq val1 val2 then .EQUALS else .DIFFERENT

/-- `BoolValidator._normalize`: boolean normalization; unrecognized
values fail (the failure is caught by `compare`). -/
def BoolValidator.normalizeVal : Value → Option Bool
  | .bool b => some b
  | .int n => some (decide (n ≠ 0))
  | .float (.finite q) => some (decide (q ≠ 0))
  | .float .nan => some true
  | .float .inf => some true
  | .float .ninf => some true
  | .str s =>
    let t := pyStripLower s
    if TRUE_VALUES.contains t then some true
    else if FALSE_VALUES.contains t then some false
    else Option.none
  | _ => Option.none

/-- `BoolValidator.compare`: the whole body is wrapped in
`try/except`, so the function is total and failures yield CORRUPTED. -/
def BoolValidator.compare (val1 val2 : Value) : ComparisonResult :=
  match BoolValidator.normalizeVal val1, BoolValidator.normalizeVal val2 with
  | some b1, some b2 =>
    if pyEq val1 val2 then .EQUALS
    else if b1 = b2 then .MATCHING else .DIFFERENT
  | _, _ => .CORRUPTED

/-- `DateValidator._normalize`: only datetime instances and parseable
strings are accepted; plain dates and everything else fail (caught by
`compare`). -/
def DateValidator.normalizeVal : Value → Option PyDateTime
  | .datetime t => some t
  | .str s => fromIsoChars (stripChars s.data)
  | _ => Option.none

/-- `d.date()` of a datetime. -/
def PyDateTime.dateOf (t : PyDateTime) : PyDate := ⟨t.year, t.month, t.day⟩

/-- `d.replace(minute=0, second=0, microsecond=0)`. -/
def PyDateTime.truncToHour (t : PyDateTime) : PyDateTime :=
  { t with minute := 0, second := 0, microsecond := 0 }

/-- `d.replace(second=0, microsecond=0)`. -/
def PyDateTime.truncToMinute (t : PyDateTime) : PyDateTime :=
  { t with second := 0, microsecond := 0 }

/-- `d.replace(microsecond=0)`. -/
def PyDateTime.truncToSecond (t : PyDateTime) : PyDateTime :=
  { t with microsecond := 0 }

/-- `DateValidator.compare` with its precision parameter; the whole
body is wrapped in `try/except`, so failures (normalization failure or
an unknown precision string) yield CORRUPTED. -/
def DateValidator.compare (precision : String) (val1 val2 : Value) : ComparisonResult :=
  match DateValidator.normalizeVal val1, DateValidator.normalizeVal val2 with
  | some d1, some d2 =>
    if d1 = d2 then
      (if pyEq val1 val2 then .EQUALS else .MATCHING)
    else if precision = "day" then
      (if d1.dateOf = d2.dateOf then .ALMOST else .DIFFERENT)
    else if precision = "hour" then
      (if d1.truncToHour = d2.truncToHour then .ALMOST else .DIFFERENT)
    else if precision = "minute" then
      (if d1.truncToMinute = d2.truncToMinute then .ALMOST else .DIFFERENT)
    else if precision = "second" then
      (if d1.truncToSecond = d2.truncToSecond then .ALMOST else .DIFFERENT)
    else .CORRUPTED
  | _, _ => .CORRUPTED

/-- `OmittedValidator.compare`. -/
def OmittedValidator.compare (_ _ : Value) : ComparisonResult := .OMITTED

/-- `IgnoreValidator.compare`. -/
def IgnoreValidator.compare (_ _ : Value) : ComparisonResult := .MATCHING

/-- `IntValidator.compare`: raw equality with identical runtime type
gives EQUALS; otherwise integer normalization (which can raise on
non-finite floats) decides MATCHING / DIFFERENT, and non-numbers give
CORRUPTED. -/
def IntValidator.compare (val1 val2 : Value) : Except String ComparisonResult := do
  if pyEq val1 val2 && pyTypeEq val1 val2 then
    Except.ok .EQUALS
  else
    let (like1, n1) ← isIntThenNormalize val1
    let (like2, n2) ← isIntThenNormalize val2
    if like1 && like2 then
      Except.ok (if n1 = n2 then .MATCHING else .DIFFERENT)
    else
      Except.ok .CORRUPTED

/-- `NumberValidator.compare` with its `float_precision` parameter. -/
def NumberValidator.compare (float_precision : ℤ) (val1 val2 : Value) :
    Except String ComparisonResult := do
  if pyEq val1 val2 && pyTypeEq val1 val2 then
    Except.ok .EQUALS
  else
    let (like1, n1) ← isIntThenNormalize val1
    let (like2, n2) ← isIntThenNormalize val2
    if like1 && like2 then
      Except.ok (if n1 = n2 then .MATCHING else .DIFFERENT)
    else
      let (flike1, x1) := isFloatThenNormalize val1
      let (flike2, x2) := isFloatThenNormalize val2
      if flike1 && flike2 then
        if x1.pyBeq x2 then Except.ok .MATCHING
        else
          let rounded1 := x1.pyRound float_precision
          let rounded2 := x2.pyRound float_precision
          Except.ok (if rounded1.pyBeq rounded2 then .ALMOST else .DIFFERENT)
      else
        Except.ok .CORRUPTED

/-- `TolerantFloatValidator.compare` with its `delta_up`, `delta_down`
and `float_precision` parameters (the deltas are finite floats, carried
as rationals).  Every operation in the body is total, so the function
never raises. -/
def TolerantFloatValidator.compare (delta_up delta_down : ℚ) (float_precision : ℤ)
    (val1 val2 : Value) : ComparisonResult :=
  if pyEq val1 val2 then .EQUALS
  else
    let (like1, x1) := isFloatThenNormalize val1
    let (like2, x2) := isFloatThenNormalize val2
    if like1 && like2 then
      if x1.pyBeq x2 then .MATCHING
      else if (x1.pyRound float_precision).pyBeq (x2.pyRound float_precision) then .ALMOST
      else
        let lower := x2.subQ delta_down
        let upper := x2.addQ delta_up
        if lower.pyLe x1 && x1.pyLe upper then .ACCEPTED else .DIFFERENT
    else .CORRUPTED

/-- `ExcelValueValidator.compare`: automatic dispatch — raw equality,
None test, date logic, number logic (which can raise through integer
normalization), boolean logic, DIFFERENT fallback.  The nested date and
number validators are the instances built in `__init__`
(`DateValidator("day")`, `NumberValidator(10)`). -/
def ExcelValueValidator.compare (val1 val2 : Value) : Except String ComparisonResult := do
  if pyEq val1 val2 then
    Except.ok .EQUALS
  else if val1 = Value.none || val2 = Value.none then
    Except.ok .DIFFERENT
  else
    let (dlike1, dn1) := isDateThenNormalize val1
    let (dlike2, dn2) := isDateThenNormalize val2
    if dlike1 && dlike2 then
      Except.ok (DateValidator.compare "day"
        (Value.datetime (dn1.getD ⟨0, 0, 0, 0, 0, 0, 0⟩))
        (Value.datetime (dn2.getD ⟨0, 0, 0, 0, 0, 0, 0⟩)))
    else
      let (nlike1, nn1) ← isNumberThenNormalize val1
      let (nlike2, nn2) ← isNumberThenNormalize val2
      if nlike1 && nlike2 then
        NumberValidator.compare 10 nn1 nn2
      else if isBoolLike val1 && isBoolLike val2 then
        Except.ok (BoolValidator.compare val1 val2)
      else
        Except.ok .DIFFERENT

-- ============================================================
-- Closed validator set (the TableValidator instances of the package)
-- ============================================================

/-- The concrete `TableValidator` instances of the package, with their
constructor parameters. -/
inductive Validator where
  | equal
  | boolv
  | datev (precision : String)
  | omitted
  | ignore
  | intv
  | numberv (float_precision : ℤ)
  | tolerantFloat (delta_up delta_down : ℚ) (float_precision : ℤ)
  | excelValue
deriving DecidableEq, Repr

/-- Dynamic dispatch of `validator.compare(val1, val2)`.  Validators
whose Python `compare` can raise are the ones routed through the
raising normalizers; the others are wrapped in `Except.ok`. -/
def Validator.compare : Validator → Value → Value → Except String ComparisonResult
  | .equal, v1, v2 => Except.ok (EqualValidator.compare v1 v2)
  | .boolv, v1, v2 => Except.ok (BoolValidator.compare v1 v2)
  | .datev p, v1, v2 => Except.ok (DateValidator.compare p v1 v2)
  | .omitted, v1, v2 => Except.ok (OmittedValidator.compare v1 v2)
  | .ignore, v1, v2 => Except.ok (IgnoreValidator.compare v1 v2)
  | .intv, v1, v2 => IntValidator.compare v1 v2
  | .numberv p, v1, v2 => NumberValidator.compare p v1 v2
  | .tolerantFloat up down p, v1, v2 => Except.ok (TolerantFloatValidator.compare up down p v1 v2)
  | .excelValue, v1, v2 => ExcelValueValidator.compare v1 v2

-- ============================================================
-- Row comparison (excel_compare.compare_a_row)
-- ============================================================

/-- One cell of the zipped-column loop of `compare_a_row`:
`v.compare(val1, val2) if v else ComparisonResult.OMITTED`. -/
def compareCell (ov : Option Validator) (val1 val2 : Value) : Except String ComparisonResult :=
  match ov with
  | some v => v.compare val1 val2
  | Option.none => Except.ok .OMITTED

/-- The zipped-column loop of `compare_a_row`: walks the zipped cell
pairs with the running column index `c`; `validator_arr[c]` raises an
IndexError when the array does not cover the column. -/
def compareRowCells (validator_arr : List (Option Validator)) :
    ℕ → List (Value × Value) → Except String (List ComparisonResult)
  | _, [] => Except.ok []
  | c, (val1, val2) :: rest => do
    let ov ← match validator_arr.get? c with
      | some ov => Except.ok ov
      | Option.none => Except.error "IndexError: list index out of range"
    let r ← compareCell ov val1 val2
    let rs ← compareRowCells validator_arr (c + 1) rest
    Except.ok (r :: rs)

/-- `compare_a_row`: per-column outcomes over the zipped columns, then
LONGER / SHORTER padding for the length difference. -/
def compare_a_row (row1 row2 : List Value) (validator_arr : List (Option Validator)) :
    Except String (List ComparisonResult) := do
  let differences ← compareRowCells validator_arr 0 (row1.zip row2)
  if row1.length > row2.length then
    Except.ok (differences ++ List.replicate (row1.length - row2.length) .LONGER)
  else if row2.length > row1.length then
    Except.ok (differences ++ List.replicate (row2.length - row1.length) .SHORTER)
  else
    Except.ok differences

-- ============================================================
-- Table engines and row enumerators (excel_table_engine)
-- ============================================================

/-- A loaded worksheet as seen through the `TableEngine` getters: the
stored cell rows, the reported column count, and the two read-only
predicates. -/
structure Engine where
  cells : List (List Value)
  maxCol : ℕ
  readonly : Bool
  engine_readonly : Bool
deriving Repr

/-- `get_max_row`. -/
def Engine.get_max_row (e : Engine) : ℕ := e.cells.length

/-- `get_row_values(row)` (1-based): one value per column `1..max_col`,
absent cells reported as None, as in `TableEnginePyxl`. -/
def Engine.get_row_values (e : Engine) (row : ℕ) : List Value :=
  (List.range e.maxCol).map (fun c => (e.cells.getD (row - 1) []).getD c Value.none)

/-- A `TableRowEnumerator`: the engine, the 1-based cursor and the
cached maximum row count. -/
structure EnumState where
  engine : Engine
  current : ℕ
  max_row : ℕ

/-- `TableRowEnumerator(engine)` (start row 1). -/
def EnumState.init (e : Engine) : EnumState := ⟨e, 1, e.get_max_row⟩

/-- `next(enumerator)` with the StopIteration case folded in: past the
cached maximum the caller substitutes index −1 and an empty row (that is
exactly what `compare_next` does with the caught StopIteration). -/
def enumNext (s : EnumState) : (ℤ × List Value) × EnumState :=
  if s.current > s.max_row then ((-1, []), s)
  else (((s.current : ℤ), s.engine.get_row_values s.current),
        { s with current := s.current + 1 })

-- ============================================================
-- Sheet comparison, bulk and streaming (excel_compare)
-- ============================================================

/-- One entry of the bulk-mode `all_differences` list:
`(index1, row1, index2, row2, differences)`. -/
structure RowTuple where
  index1 : ℤ
  row1 : List Value
  index2 : ℤ
  row2 : List Value
  differences : List ComparisonResult
deriving DecidableEq, Repr

/-- One streamed `consumer.diff(r, index1, row1, index2, row2,
differences)` call recorded by a purely collecting consumer. -/
structure ConsumedRow where
  r : ℕ
  index1 : ℤ
  row1 : List Value
  index2 : ℤ
  row2 : List Value
  differences : List ComparisonResult
deriving DecidableEq, Repr

/-- The two accumulators of `compare_sheets_by_enum`: `all_differences`
(a list when no consumer is set, Python None otherwise) and the record
of a collecting consumer. -/
structure CompareAccs where
  all_differences : Option (List RowTuple)
  consumed : List ConsumedRow
deriving Repr

/-- `calculate_validator_array` restricted to the calls the comparison
paths make (`validator_dict=None`): pad or build the array from the
default validator up to the reference engine's column count. -/
def calculate_validator_array (max_cols : ℕ)
    (validator_arr : Option (List (Option Validator)))
    (default_validator : Option Validator) : List (Option Validator) :=
  match validator_arr with
  | Option.none => List.replicate max_cols default_validator
  | some l =>
    if l.length < max_cols then l ++ List.replicate (max_cols - l.length) default_validator
    else l

/-- `compare_next`: pull one row from each enumerator (missing rows
become index −1 with an empty row), compare, and either stream the
result to the consumer or append it to `all_differences`. -/
def compare_next (r : ℕ) (enum1 enum2 : EnumState)
    (validator_arr : List (Option Validator)) (consumer : Bool) (accs : CompareAccs) :
    Except String (EnumState × EnumState × CompareAccs) := do
  let ((index1, row1), enum1') := enumNext enum1
  let ((index2, row2), enum2') := enumNext enum2
  let differences ← compare_a_row row1 row2 validator_arr
  if consumer then
    Except.ok (enum1', enum2',
      { accs with consumed := accs.consumed ++ [⟨r, index1, row1, index2, row2, differences⟩] })
  else
    Except.ok (enum1', enum2',
      { accs with all_differences :=
          accs.all_differences.map (· ++ [⟨index1, row1, index2, row2, differences⟩]) })

/-- The `for r in range(2, max_rows + 1)` loop of
`compare_sheets_by_enum`, counting down the remaining rows. -/
def compareRowsFrom (validator_arr : List (Option Validator)) (consumer : Bool) :
    ℕ → ℕ → EnumState → EnumState → CompareAccs → Except String CompareAccs
  | _, 0, _, _, accs => Except.ok accs
  | r, n + 1, enum1, enum2, accs => do
    let (enum1', enum2', accs') ← compare_next r enum1 enum2 validator_arr consumer accs
    compareRowsFrom validator_arr consumer (r + 1) n enum1' enum2' accs'

/-- `compare_sheets_by_enum`: row 1 is compared with a fresh validator
array built from a strict-equality default (regardless of the supplied
array), the remaining rows with the supplied array; `consumer` selects
streaming mode (collecting consumer) versus bulk mode. -/
def compare_sheets_by_enum (eng1 eng2 : Engine)
    (validator_arr : List (Option Validator)) (consumer : Bool) :
    Except String CompareAccs := do
  let enum1 := EnumState.init eng1
  let enum2 := EnumState.init eng2
  let max_rows := max enum1.max_row enum2.max_row
  let accs0 : CompareAccs := ⟨if consumer then Option.none else some [], []⟩
  let validator_arr_nur_str :=
    calculate_validator_array eng2.maxCol Option.none (some Validator.equal)
  let (enum1', enum2', accs1) ← compare_next 1 enum1 enum2 validator_arr_nur_str consumer accs0
  compareRowsFrom validator_arr consumer 2 (max_rows - 1) enum1' enum2' accs1

-- ============================================================
-- Validator registry (table_validator_registry.ValidatorRegistry)
-- ============================================================

/-- A `ValidatorRegistry`: name-keyed and index-keyed validator maps
with a default.  Python dict keys compare with `==`, so the name map is
an association list over header cell values under `pyEq`. -/
structure ValidatorRegistry where
  by_column_name : List (Value × Validator)
  by_column_index : List (ℕ × Validator)
  default_validator : Option Validator

/-- Lookup in the name map (`column_name in self.by_column_name`). -/
def lookupByName (m : List (Value × Validator)) (k : Value) : Option Validator :=
  (m.find? (fun p => pyEq p.1 k)).map (·.2)

/-- Lookup in the index map. -/
def lookupByIndex (m : List (ℕ × Validator)) (k : ℕ) : Option Validator :=
  (m.find? (fun p => p.1 == k)).map (·.2)

/-- `ValidatorRegistry.get_validator`: name match, then index match,
then the default. -/
def ValidatorRegistry.get_validator (reg : ValidatorRegistry)
    (column_name : Value) (column_index : ℕ) : Option Validator :=
  match lookupByName reg.by_column_name column_name with
  | some v => some v
  | Option.none =>
    match lookupByIndex reg.by_column_index column_index with
    | some v => some v
    | Option.none => reg.default_validator

/-- `validators[index] = value` with Python list-assignment semantics
(IndexError beyond the current length). -/
def listAssign (l : List (Option Validator)) (i : ℕ) (v : Option Validator) :
    Except String (List (Option Validator)) :=
  if i < l.length then Except.ok (l.set i v)
  else Except.error "IndexError: list assignment index out of range"

/-- The `enumerate(header_row)` loop of `resolve_validators`. -/
def resolveHeaderLoop (reg : ValidatorRegistry) :
    ℕ → List Value → List (Option Validator) → Except String (List (Option Validator))
  | _, [], validators => Except.ok validators
  | index, col_name :: rest, validators => do
    let validators ← listAssign validators index (reg.get_validator col_name index)
    resolveHeaderLoop reg (index + 1) rest validators

/-- `while len(validators) < index: validators.append(default)` then
`validators.append(validator)`. -/
def extendTo (validators : List (Option Validator)) (index : ℕ)
    (dflt : Option Validator) (v : Option Validator) : List (Option Validator) :=
  validators ++ List.replicate (index - validators.length) dflt ++ [v]

/-- The `self.by_column_index.items()` loop of `resolve_validators`. -/
def resolveIndexLoop (default_validator : Option Validator) :
    List (ℕ × Validator) → List (Option Validator) → List (Option Validator)
  | [], validators => validators
  | (index, v) :: rest, validators =>
    let validators :=
      if index < validators.length then validators.set index (some v)
      else extendTo validators index default_validator (some v)
    resolveIndexLoop default_validator rest validators

/-- `ValidatorRegistry.resolve_validators(header_row, max_col)`. -/
def ValidatorRegistry.resolve_validators (reg : ValidatorRegistry)
    (header_row : List Value) (max_col : ℕ) : Except String (List (Option Validator)) := do
  let validators := List.replicate max_col reg.default_validator
  let validators ← resolveHeaderLoop reg 0 header_row validators
  Except.ok (resolveIndexLoop reg.default_validator reg.by_column_index validators)

-- ============================================================
-- Comparison summary (table_comparison_summary.ComparisonSummary)
-- ============================================================

/-- One recorded cell: `(row, col, val1, val2)`. -/
structure SummaryCell where
  row : ℕ
  col : ℕ
  val1 : Value
  val2 : Value
deriving DecidableEq, Repr

/-- A `ComparisonSummary`: the outcome-keyed buckets (a defaultdict in
insertion order) and the header values. -/
structure ComparisonSummary where
  results : List (ComparisonResult × List SummaryCell)
  header_values : List Value
deriving Repr

/-- `ComparisonSummary()`. -/
def ComparisonSummary.init : ComparisonSummary := ⟨[], []⟩

/-- `self.results[result].append(cell)` with defaultdict(list)
semantics: append to the existing bucket, or create one at the end. -/
def bucketAppend (buckets : List (ComparisonResult × List SummaryCell))
    (result : ComparisonResult) (cell : SummaryCell) :
    List (ComparisonResult × List SummaryCell) :=
  match buckets with
  | [] => [(result, [cell])]
  | (k, cells) :: rest =>
    if k = result then (k, cells ++ [cell]) :: rest
    else (k, cells) :: bucketAppend rest result cell

/-- `ComparisonSummary.add`. -/
def ComparisonSummary.add (s : ComparisonSummary) (row col : ℕ) (val1 val2 : Value)
    (result : ComparisonResult) : ComparisonSummary :=
  { s with results := bucketAppend s.results result ⟨row, col, val1, val2⟩ }

/-- `ComparisonSummary.set_header_values`. -/
def ComparisonSummary.set_header_values (s : ComparisonSummary) (header_values : List Value) :
    ComparisonSummary :=
  { s with header_values := header_values }

/-- `counts[name] += 1` with defaultdict(int) semantics over an
insertion-ordered map. -/
def incKey (m : List (String × ℕ)) (k : String) : List (String × ℕ) :=
  match m with
  | [] => [(k, 1)]
  | (k', n) :: rest =>
    if k' = k then (k', n + 1) :: rest else (k', n) :: incKey rest k

/-- One recorded cell applied to the per-column count array
(`summary_array[col - 1][result.name] += 1` guarded by the column
bound). -/
def summaryStep (nm : String) (arr : List (List (String × ℕ))) (cell : SummaryCell) :
    List (List (String × ℕ)) :=
  if 1 ≤ cell.col && cell.col ≤ arr.length then
    arr.set (cell.col - 1) (incKey (arr.getD (cell.col - 1) []) nm)
  else arr

/-- `ComparisonSummary.summary_by_header_array`: ValueError when the
header values are unset (or empty — Python tests the list's truth
value), otherwise one insertion-ordered count map per header column. -/
def ComparisonSummary.summary_by_header_array (s : ComparisonSummary) :
    Except String (List (List (String × ℕ))) :=
  if s.header_values.isEmpty then
    Except.error "ValueError: header_values must be set before calling summary_by_header_array."
  else
    Except.ok (s.results.foldl
      (fun arr bucket => bucket.2.foldl (summaryStep bucket.1.name) arr)
      (List.replicate s.header_values.length []))

-- ============================================================
-- Diff consumer (excel_differator.DiffConsumer)
-- ============================================================

/-- The observable effects of one `DiffConsumer.diff` call: the
conjunction of the per-column acceptability tests, the two fill-color
lists, the cells recorded in the summary, whether the reference row was
re-colored, and whether the measured row was inserted into the
reference table. -/
structure DiffEffects where
  okay : Bool
  formats_ref : List String
  formats_mess : List String
  summaryAdds : List (ℕ × ℕ × Value × Value × ComparisonResult)
  refColored : Bool
  inserted : Bool
deriving Repr

/-- The running state of the column loop in `DiffConsumer.diff`. -/
structure DiffLoopState where
  okay : Bool
  formats_ref : List String
  formats_mess : List String
  summaryAdds : List (ℕ × ℕ × Value × Value × ComparisonResult)
deriving Repr

/-- Columns at or beyond the reference table's original column count
are forced to LONGER. -/
def forceResult (start_max_cols2 : ℕ) (c : ℕ) (result : ComparisonResult) : ComparisonResult :=
  if c ≥ start_max_cols2 then .LONGER else result

/-- One iteration of the column loop of `DiffConsumer.diff`. -/
def diffStep (start_max_cols2 : ℕ) (summaryAttached : Bool) (r : ℕ)
    (row1 row2 : List Value) (st : DiffLoopState) (c : ℕ) (result : ComparisonResult) :
    DiffLoopState :=
  let result := forceResult start_max_cols2 c result
  let okay := st.okay && result.ok
  let colors := result.get_cell_colors
  let summaryAdds :=
    if summaryAttached && result.foul then
      st.summaryAdds ++ [(r, c + 1, row1.getD c Value.none, row2.getD c Value.none, result)]
    else st.summaryAdds
  ⟨okay, st.formats_ref ++ [colors.1], st.formats_mess ++ [colors.2], summaryAdds⟩

/-- The column loop of `DiffConsumer.diff` over the enumerated
differences. -/
def diffLoop (start_max_cols2 : ℕ) (summaryAttached : Bool) (r : ℕ)
    (row1 row2 : List Value) :
    DiffLoopState → ℕ → List ComparisonResult → DiffLoopState
  | st, _, [] => st
  | st, c, result :: rest =>
    diffLoop start_max_cols2 summaryAttached r row1 row2
      (diffStep start_max_cols2 summaryAttached r row1 row2 st c result) (c + 1) rest

/-- `DiffConsumer.diff`: color the reference row when it exists, record
foul cells in the attached summary, and insert the measured row into the
reference table when the row is not fully acceptable and the measured
row is non-empty. -/
def DiffConsumer.diff (start_max_cols2 : ℕ) (summaryAttached : Bool) (r : ℕ)
    (index1 : ℤ) (row1 : List Value) (index2 : ℤ) (row2 : List Value)
    (differences : List ComparisonResult) : DiffEffects :=
  let st := diffLoop start_max_cols2 summaryAttached r row1 row2 ⟨true, [], [], []⟩ 0 differences
  { okay := st.okay
    formats_ref := st.formats_ref
    formats_mess := st.formats_mess
    summaryAdds := st.summaryAdds
    refColored := index2 > 0
    inserted := !st.okay && !row1.isEmpty }

-- ============================================================
-- Top-level diff entry point (excel_differator)
-- ============================================================

/-- The parameter names of `compare_sheets_by_enum` as defined in
excel_compare.py. -/
def compareSheetsByEnumParamNames : List String :=
  ["enum1", "enum2", "validator_arr", "consumer"]

/-- Python keyword-argument binding: a keyword absent from the callee's
parameter list raises a TypeError. -/
def pyBindKeywords (funcName : String) (paramNames keywords : List String) :
    Except String Unit :=
  match keywords.find? (fun k => !paramNames.contains k) with
  | some k =>
    Except.error ("TypeError: " ++ funcName ++ "() got an unexpected keyword argument " ++ k)
  | Option.none => Except.ok ()

/-- `DiffConsumer.compare_sheets_consume_diff(validator_arr,
has_header)`: the body is the single call
`compare_sheets_by_enum(self.enum1, self.enum2, has_header=has_header,
validator_arr=validator_arr, consumer=self)`.  Python binds the keyword
arguments before executing the callee, and `compare_sheets_by_enum` has
no `has_header` parameter, so the binding step raises; the comparison
that would follow a successful binding is unreachable in the current
source. -/
def DiffConsumer.compare_sheets_consume_diff (eng1 eng2 : Engine)
    (validator_arr : List (Option Validator)) (has_header : Bool) :
    Except String Unit := do
  pyBindKeywords "compare_sheets_by_enum" compareSheetsByEnumParamNames
    ["has_header", "validator_arr", "consumer"]
  Except.ok ()

/-- `differentiate_sheets_by_ws`: read-only guards, header-row
projection, validator resolution through the registry, header values
into the summary, then the consumer-mode comparison (which raises on
keyword binding, see `DiffConsumer.compare_sheets_consume_diff`).  The
summary mutation has no bearing on the raised error, so the embedding
returns only the `Except` outcome. -/
def differentiate_sheets_by_ws (eng1 eng2 : Engine) (has_header : Bool)
    (registry : ValidatorRegistry) (summaryAttached : Bool) : Except String Unit := do
  if eng2.engine_readonly then
    Except.error "Exception: The target engine is read-only and cannot be colored!"
  else if eng2.readonly then
    Except.error "Exception: The target worksheet is read-only and cannot be colored!"
  else
    let values_row1 := eng2.get_row_values 1
    let max_col := max eng1.maxCol eng2.maxCol
    let validator_arr ← registry.resolve_validators values_row1 max_col
    DiffConsumer.compare_sheets_consume_diff eng1 eng2 validator_arr has_header

-- ============================================================
-- Shared lemmas
-- ============================================================

/-- `Except` success test. -/
def exceptIsOk {α : Type} : Except String α → Bool
  | Except.ok _ => true
  | Except.error _ => false

theorem bindOk {α β : Type} (a : α) (f : α → Except String β) :
    (Except.ok a : Except String α) >>= f = f a := rfl

theorem bindErr {α β : Type} (e : String) (f : α → Except String β) :
    (Except.error e : Except String α) >>= f = Except.error e := rfl

theorem pyEq_refl (v : Value) (h : v ≠ Value.float PyFloat.nan) : pyEq v v = true := by
  cases v with
  | none => rfl
  | bool b => simp [pyEq]
  | int n => simp [pyEq]
  | float f =>
    cases f with
    | finite q => simp [pyEq, PyFloat.pyBeq]
    | nan => exact absurd rfl h
    | inf => rfl
    | ninf => rfl
  | str s => simp [pyEq]
  | date d => simp [pyEq]
  | datetime t => simp [pyEq]

theorem foul_iff (r : ComparisonResult) :
    r.foul = true ↔ (r = .DIFFERENT ∨ r = .CORRUPTED) := by
  cases r <;> simp [ComparisonResult.foul]

/-- A value whose number normalization neither raises nor produces a
non-finite float (the hypothesis under which the integer-normalizing
validators cannot raise). -/
def numNormalizesFinite (v : Value) : Bool :=
  match isNumberThenNormalize v with
  | Except.ok (_, Value.float (PyFloat.finite _)) => true
  | Except.ok (_, Value.float _) => false
  | Except.ok _ => true
  | Except.error _ => false

theorem isInt_ok_of_numFinite (v : Value) (h : numNormalizesFinite v = true) :
    ∃ p, isIntThenNormalize v = Except.ok p := by
  unfold numNormalizesFinite isNumberThenNormalize at h
  cases h' : isIntThenNormalize v with
  | ok p => exact ⟨p, rfl⟩
  | error e =>
    rw [h', bindErr] at h
    exact absurd h (by simp)

theorem isNumber_ok_of_numFinite (v : Value) (h : numNormalizesFinite v = true) :
    ∃ p, isNumberThenNormalize v = Except.ok p := by
  unfold numNormalizesFinite at h
  cases h' : isNumberThenNormalize v with
  | ok p => exact ⟨p, rfl⟩
  | error e => rw [h'] at h; exact absurd h (by simp)

theorem isNumber_finite_shape (v : Value) (h : numNormalizesFinite v = true)
    (l : Bool) (w : Value) (h2 : isNumberThenNormalize v = Except.ok (l, w)) :
    (∃ n, w = Value.int n) ∨ (∃ q, w = Value.float (PyFloat.finite q)) := by
  unfold numNormalizesFinite at h
  rw [h2] at h
  have h2' := h2
  unfold isNumberThenNormalize at h2'
  cases hi : isIntThenNormalize v with
  | error e => rw [hi, bindErr] at h2'; exact absurd h2' (by simp)
  | ok p =>
    obtain ⟨like, n⟩ := p
    rw [hi, bindOk] at h2'
    cases like with
    | true =>
      simp only [if_pos rfl] at h2'
      exact Or.inl ⟨n, by injection h2' with h3; injection h3 with _ h4; exact h4.symm⟩
    | false =>
      simp at h2'
      have hw : w = Value.float (isFloatThenNormalize v).2 := h2'.2.symm
      rw [hw] at h ⊢
      cases hf : (isFloatThenNormalize v).2 with
      | finite q => exact Or.inr ⟨q, rfl⟩
      | nan => rw [hf] at h; exact absurd h (by simp)
      | inf => rw [hf] at h; exact absurd h (by simp)
      | ninf => rw [hf] at h; exact absurd h (by simp)

theorem isInt_ok_of_int_or_finite (w : Value)
    (h : (∃ n, w = Value.int n) ∨ (∃ q, w = Value.float (PyFloat.finite q))) :
    ∃ p, isIntThenNormalize w = Except.ok p := by
  rcases h with ⟨n, rfl⟩ | ⟨q, rfl⟩
  · exact ⟨(true, n), rfl⟩
  · exact ⟨(decide (q.den = 1), ratTrunc q), rfl⟩

theorem intValidator_ok_of_isInt_ok (v1 v2 : Value)
    (h1 : ∃ p, isIntThenNormalize v1 = Except.ok p)
    (h2 : ∃ p, isIntThenNormalize v2 = Except.ok p) :
    exceptIsOk (IntValidator.compare v1 v2) = true := by
  obtain ⟨⟨l1, n1⟩, h1⟩ := h1
  obtain ⟨⟨l2, n2⟩, h2⟩ := h2
  unfold IntValidator.compare
  split
  · rfl
  · simp only [h1, h2, bindOk]
    split
    · split <;> rfl
    · rfl

theorem numberValidator_ok_of_isInt_ok (p : ℤ) (v1 v2 : Value)
    (h1 : ∃ q, isIntThenNormalize v1 = Except.ok q)
    (h2 : ∃ q, isIntThenNormalize v2 = Except.ok q) :
    exceptIsOk (NumberValidator.compare p v1 v2) = true := by
  obtain ⟨⟨l1, n1⟩, h1⟩ := h1
  obtain ⟨⟨l2, n2⟩, h2⟩ := h2
  unfold NumberValidator.compare
  split
  · rfl
  · simp only [h1, h2, bindOk]
    split
    · split <;> rfl
    · split
      · split
        · rfl
        · split <;> rfl
      · rfl

theorem excelValidator_ok_of_numFinite (v1 v2 : Value)
    (h1 : numNormalizesFinite v1 = true) (h2 : numNormalizesFinite v2 = true) :
    exceptIsOk (ExcelValueValidator.compare v1 v2) = true := by
  obtain ⟨⟨l1, w1⟩, hn1⟩ := isNumber_ok_of_numFinite v1 h1
  obtain ⟨⟨l2, w2⟩, hn2⟩ := isNumber_ok_of_numFinite v2 h2
  unfold ExcelValueValidator.compare
  rcases hd1 : isDateThenNormalize v1 with ⟨dl1, dn1⟩
  rcases hd2 : isDateThenNormalize v2 with ⟨dl2, dn2⟩
  simp only [hd1, hd2, hn1, hn2, bindOk]
  split
  · rfl
  · split
    · rfl
    · split
      · rfl
      · split
        · exact numberValidator_ok_of_isInt_ok 10 w1 w2
            (isInt_ok_of_int_or_finite w1 (isNumber_finite_shape v1 h1 l1 w1 hn1))
            (isInt_ok_of_int_or_finite w2 (isNumber_finite_shape v2 h2 l2 w2 hn2))
        · split <;> rfl

-- ============================================================
-- Claim C2 — strict-equality reflexivity
-- ============================================================

/-- C2 counterexample: Python `==` is not reflexive on the cell value
domain — nan is unequal to itself — so the strict-equality validator
maps compare(nan, nan) to DIFFERENT, not EQUALS, refuting the claim
that compare(v, v) = EQUALS for every value v. -/
theorem claim2_counterexample :
    EqualValidator.compare (Value.float PyFloat.nan) (Value.float PyFloat.nan) =
      ComparisonResult.DIFFERENT ∧
    ¬ EqualValidator.compare (Value.float PyFloat.nan) (Value.float PyFloat.nan) =
      ComparisonResult.EQUALS := by decide

/-- C2 (amended): for every value other than the float nan — the only
cell value not equal to itself under Python `==` — the strict-equality
validator's compare(v, v) returns EQUALS. -/
theorem claim2_theorem (v : Value) (h : v ≠ Value.float PyFloat.nan) :
    EqualValidator.compare v v = ComparisonResult.EQUALS := by
  unfold EqualValidator.compare
  rw [pyEq_refl v h]
  rfl

/-- C2 witness: the amended reflexivity at the concrete value 3. -/
theorem claim2_witness :
    EqualValidator.compare (Value.int 3) (Value.int 3) = ComparisonResult.EQUALS :=
  claim2_theorem (Value.int 3) (by decide)

-- ============================================================
-- Claim C3 — validator totality
-- ============================================================

/-- C3 counterexample: the integer-aware validator raises
(`int(float("nan"))` inside `_is_int_then_normalize` is not guarded by
any try/except) instead of resolving to CORRUPTED, refuting the claim
that every concrete validator returns an Outcome without raising on the
whole domain including nan. -/
theorem claim3_counterexample :
    IntValidator.compare (Value.float PyFloat.nan) (Value.int 5) =
      Except.error "ValueError: cannot convert float NaN to integer" := by decide

/-- C3 (amended): the strict-equality, boolean-aware, date-aware,
tolerance-banded-float, omit and ignore validators are total on the
whole domain (they are plain functions of the embedding: their Python
bodies either catch every exception or perform no raising operation);
the integer-aware, tolerant-numeric and auto-composite validators
return an Outcome without raising whenever neither argument makes the
integer normalization raise, i.e. whenever neither argument is a nan or
infinite float nor (for the auto-composite) a numeric string whose
parsed magnitude overflows the double range. -/
theorem claim3_theorem (v1 v2 : Value) (p : ℤ)
    (h1 : numNormalizesFinite v1 = true) (h2 : numNormalizesFinite v2 = true) :
    exceptIsOk (IntValidator.compare v1 v2) = true ∧
    exceptIsOk (NumberValidator.compare p v1 v2) = true ∧
    exceptIsOk (ExcelValueValidator.compare v1 v2) = true :=
  ⟨intValidator_ok_of_isInt_ok v1 v2 (isInt_ok_of_numFinite v1 h1) (isInt_ok_of_numFinite v2 h2),
   numberValidator_ok_of_isInt_ok p v1 v2 (isInt_ok_of_numFinite v1 h1) (isInt_ok_of_numFinite v2 h2),
   excelValidator_ok_of_numFinite v1 v2 h1 h2⟩

/-- C3 witness: totality of the three raising-capable validators at the
concrete pair ("abc", 5) with precision 2. -/
theorem claim3_witness :
    exceptIsOk (IntValidator.compare (Value.str "abc") (Value.int 5)) = true ∧
    exceptIsOk (NumberValidator.compare 2 (Value.str "abc") (Value.int 5)) = true ∧
    exceptIsOk (ExcelValueValidator.compare (Value.str "abc") (Value.int 5)) = true :=
  claim3_theorem (Value.str "abc") (Value.int 5) 2 (by decide) (by decide)

-- ============================================================
-- Claim C4 — date-aware validator on native dates / datetimes
-- ============================================================

/-- C4 counterexample: `DateValidator._normalize` accepts only datetime
instances and strings, so two equal native date values (dates are not
datetime instances in Python) normalize unsuccessfully and compare as
CORRUPTED, not EQUALS. -/
theorem claim4_counterexample :
    DateValidator.compare "day" (Value.date ⟨2023, 10, 1⟩) (Value.date ⟨2023, 10, 1⟩) =
      ComparisonResult.CORRUPTED ∧
    ¬ DateValidator.compare "day" (Value.date ⟨2023, 10, 1⟩) (Value.date ⟨2023, 10, 1⟩) =
      ComparisonResult.EQUALS := by decide

/-- C4 (amended): for native datetime values the date-aware validator's
normalization always succeeds and the result is never CORRUPTED: two
equal datetimes compare EQUALS, and two datetimes on the same day
compare EQUALS, MATCHING or ALMOST; plain date values, by contrast, are
rejected by the normalization (see the counterexample). -/
theorem claim4_theorem (t1 t2 : PyDateTime) :
    DateValidator.normalizeVal (Value.datetime t1) = some t1 ∧
    DateValidator.compare "day" (Value.datetime t1) (Value.datetime t2) ≠
      ComparisonResult.CORRUPTED ∧
    (t1 = t2 →
      DateValidator.compare "day" (Value.datetime t1) (Value.datetime t2) =
        ComparisonResult.EQUALS) ∧
    (t1.dateOf = t2.dateOf →
      DateValidator.compare "day" (Value.datetime t1) (Value.datetime t2) =
        ComparisonResult.EQUALS ∨
      DateValidator.compare "day" (Value.datetime t1) (Value.datetime t2) =
        ComparisonResult.MATCHING ∨
      DateValidator.compare "day" (Value.datetime t1) (Value.datetime t2) =
        ComparisonResult.ALMOST) := by
  by_cases ht : t1 = t2
  · subst ht
    have hr : DateValidator.compare "day" (Value.datetime t1) (Value.datetime t1) =
        ComparisonResult.EQUALS := by
      simp [DateValidator.compare, DateValidator.normalizeVal, pyEq]
    refine ⟨rfl, by rw [hr]; decide, fun _ => hr, fun _ => Or.inl hr⟩
  · by_cases hdt : t1.dateOf = t2.dateOf
    · have hr : DateValidator.compare "day" (Value.datetime t1) (Value.datetime t2) =
          ComparisonResult.ALMOST := by
        simp [DateValidator.compare, DateValidator.normalizeVal, ht, hdt]
      exact ⟨rfl, by rw [hr]; decide, fun h => absurd h ht, fun _ => Or.inr (Or.inr hr)⟩
    · have hr : DateValidator.compare "day" (Value.datetime t1) (Value.datetime t2) =
          ComparisonResult.DIFFERENT := by
        simp [DateValidator.compare, DateValidator.normalizeVal, ht, hdt]
      exact ⟨rfl, by rw [hr]; decide, fun h => absurd h ht, fun h => absurd h hdt⟩

/-- C4 witness: two datetimes on 2023-10-01 at different times compare
to one of EQUALS / MATCHING / ALMOST. -/
theorem claim4_witness :
    DateValidator.compare "day" (Value.datetime ⟨2023, 10, 1, 0, 0, 0, 0⟩)
        (Value.datetime ⟨2023, 10, 1, 23, 59, 59, 0⟩) = ComparisonResult.EQUALS ∨
    DateValidator.compare "day" (Value.datetime ⟨2023, 10, 1, 0, 0, 0, 0⟩)
        (Value.datetime ⟨2023, 10, 1, 23, 59, 59, 0⟩) = ComparisonResult.MATCHING ∨
    DateValidator.compare "day" (Value.datetime ⟨2023, 10, 1, 0, 0, 0, 0⟩)
        (Value.datetime ⟨2023, 10, 1, 23, 59, 59, 0⟩) = ComparisonResult.ALMOST :=
  (claim4_theorem ⟨2023, 10, 1, 0, 0, 0, 0⟩ ⟨2023, 10, 1, 23, 59, 59, 0⟩).2.2.2 (by decide)

-- ============================================================
-- Claim C6 — MATCHING for format-different equal numbers
-- ============================================================

/-- C6: whenever both inputs are integer-like with equal normalized
value but the raw-equal-and-same-type test fails (different literal
form or different runtime type), the integer-aware and tolerant-numeric
validators return MATCHING (hence never EQUALS); whenever both are
float-like with equal normalized floats and not both integer-like, the
tolerant-numeric validator returns MATCHING; and the locale examples:
tolerant-numeric(2) maps ("1.234,56", 1234.56) to MATCHING and
("1.234,56", 1235.56) to DIFFERENT. -/
theorem claim6_theorem :
    (∀ (v1 v2 : Value) (n1 n2 p : ℤ),
      isIntThenNormalize v1 = Except.ok (true, n1) →
      isIntThenNormalize v2 = Except.ok (true, n2) →
      n1 = n2 →
      (pyEq v1 v2 && pyTypeEq v1 v2) = false →
      IntValidator.compare v1 v2 = Except.ok ComparisonResult.MATCHING ∧
      NumberValidator.compare p v1 v2 = Except.ok ComparisonResult.MATCHING) ∧
    (∀ (v1 v2 : Value) (b1 b2 : Bool) (m1 m2 : ℤ) (x1 x2 : PyFloat) (p : ℤ),
      (pyEq v1 v2 && pyTypeEq v1 v2) = false →
      isIntThenNormalize v1 = Except.ok (b1, m1) →
      isIntThenNormalize v2 = Except.ok (b2, m2) →
      (b1 && b2) = false →
      isFloatThenNormalize v1 = (true, x1) →
      isFloatThenNormalize v2 = (true, x2) →
      x1.pyBeq x2 = true →
      NumberValidator.compare p v1 v2 = Except.ok ComparisonResult.MATCHING) ∧
    NumberValidator.compare 2 (Value.str "1.234,56")
      (Value.float (PyFloat.finite (123456 / 100))) = Except.ok ComparisonResult.MATCHING ∧
    NumberValidator.compare 2 (Value.str "1.234,56")
      (Value.float (PyFloat.finite (123556 / 100))) = Except.ok ComparisonResult.DIFFERENT := by
  refine ⟨?_, ?_, by decide, by decide⟩
  · intro v1 v2 n1 n2 p h1 h2 hn hraw
    subst hn
    constructor
    · simp [IntValidator.compare, hraw, h1, h2, bindOk]
    · simp [NumberValidator.compare, hraw, h1, h2, bindOk]
  · intro v1 v2 b1 b2 m1 m2 x1 x2 p hraw h1 h2 hb hf1 hf2 hx
    simp [NumberValidator.compare, hraw, h1, h2, hf1, hf2, hx, bindOk]
    intro hb1 hb2
    rw [hb1, hb2] at hb
    exact absurd hb (by simp)

/-- C6 witness: the integer rule at (5, "5") and the locale example. -/
theorem claim6_witness :
    IntValidator.compare (Value.int 5) (Value.str "5") = Except.ok ComparisonResult.MATCHING ∧
    NumberValidator.compare 10 (Value.int 5) (Value.str "5") =
      Except.ok ComparisonResult.MATCHING :=
  claim6_theorem.1 (Value.int 5) (Value.str "5") 5 5 10 (by decide) (by decide) rfl (by decide)

-- ============================================================
-- Claim C7 — tolerance band of the tolerance-banded-float validator
-- ============================================================

/-- C7: when the raw values are unequal, both float-like, not
normalized-equal and not rounded-equal at the configured precision, the
tolerance-banded-float validator returns ACCEPTED exactly when value1
lies in the closed interval [value2 − down, value2 + up], DIFFERENT
otherwise; with up = 0.02, down = 0.01, precision 2 it maps
(4.99, 5.00) to ACCEPTED and (4.98, 5.00) to DIFFERENT. -/
theorem claim7_theorem :
    (∀ (up down : ℚ) (p : ℤ) (v1 v2 : Value) (x1 x2 : PyFloat),
      pyEq v1 v2 = false →
      isFloatThenNormalize v1 = (true, x1) →
      isFloatThenNormalize v2 = (true, x2) →
      x1.pyBeq x2 = false →
      (x1.pyRound p).pyBeq (x2.pyRound p) = false →
      TolerantFloatValidator.compare up down p v1 v2 =
        (if ((x2.subQ down).pyLe x1 && x1.pyLe (x2.addQ up)) = true then
          ComparisonResult.ACCEPTED
        else ComparisonResult.DIFFERENT)) ∧
    TolerantFloatValidator.compare (2 / 100) (1 / 100) 2
      (Value.float (PyFloat.finite (499 / 100))) (Value.float (PyFloat.finite 5)) =
      ComparisonResult.ACCEPTED ∧
    TolerantFloatValidator.compare (2 / 100) (1 / 100) 2
      (Value.float (PyFloat.finite (498 / 100))) (Value.float (PyFloat.finite 5)) =
      ComparisonResult.DIFFERENT := by
  refine ⟨?_, by decide, by decide⟩
  intro up down p v1 v2 x1 x2 hraw hf1 hf2 hx hr
  simp [TolerantFloatValidator.compare, hraw, hf1, hf2, hx, hr]

/-- C7 witness: the band rule instantiated at (4.99, 5.00) with
up = 0.02, down = 0.01, precision 2. -/
theorem claim7_witness :
    TolerantFloatValidator.compare (2 / 100) (1 / 100) 2
      (Value.float (PyFloat.finite (499 / 100))) (Value.float (PyFloat.finite 5)) =
      (if (((PyFloat.finite (5 : ℚ)).subQ (1 / 100)).pyLe (PyFloat.finite (499 / 100)) &&
            (PyFloat.finite ((499 : ℚ) / 100)).pyLe ((PyFloat.finite (5 : ℚ)).addQ (2 / 100))) = true then
        ComparisonResult.ACCEPTED
      else ComparisonResult.DIFFERENT) :=
  claim7_theorem.1 (2 / 100) (1 / 100) 2
    (Value.float (PyFloat.finite (499 / 100))) (Value.float (PyFloat.finite 5))
    (PyFloat.finite (499 / 100)) (PyFloat.finite 5)
    (by decide) (by decide) (by decide) (by decide) (by decide)

-- ============================================================
-- Claim C5 — row comparison structure
-- ============================================================

theorem compareRowCells_spec (pairs : List (Value × Value)) :
    ∀ (c : ℕ) (varr : List (Option Validator)) (l : List ComparisonResult),
      compareRowCells varr c pairs = Except.ok l →
      l.length = pairs.length ∧
      ∀ i, i < pairs.length →
        ∃ ov, varr.get? (c + i) = some ov ∧
          compareCell ov (pairs.getD i (Value.none, Value.none)).1
              (pairs.getD i (Value.none, Value.none)).2 =
            Except.ok (l.getD i ComparisonResult.EQUALS) := by
  induction pairs with
  | nil =>
    intro c varr l h
    unfold compareRowCells at h
    injection h with h
    subst h
    exact ⟨rfl, fun i hi => absurd hi (by simp)⟩
  | cons hd tl ih =>
    intro c varr l h
    unfold compareRowCells at h
    cases hov : varr.get? c with
    | none =>
      rw [hov] at h
      simp only [bindErr] at h
      exact absurd h (by simp)
    | some ov =>
      rw [hov] at h
      simp only [bindOk] at h
      cases hr : compareCell ov hd.1 hd.2 with
      | error e =>
        rw [hr] at h
        simp only [bindErr] at h
        exact absurd h (by simp)
      | ok r =>
        rw [hr] at h
        simp only [bindOk] at h
        cases hrest : compareRowCells varr (c + 1) tl with
        | error e =>
          rw [hrest] at h
          simp only [bindErr] at h
          exact absurd h (by simp)
        | ok rs =>
          rw [hrest] at h
          simp only [bindOk] at h
          injection h with h
          subst h
          obtain ⟨hlen, hcells⟩ := ih (c + 1) varr rs hrest
          refine ⟨by simp [hlen], ?_⟩
          intro i hi
          cases i with
          | zero =>
            refine ⟨ov, by simpa using hov, ?_⟩
            simpa using hr
          | succ j =>
            have hj : j < tl.length := by simpa using hi
            obtain ⟨ov', hov', hc'⟩ := hcells j hj
            refine ⟨ov', ?_, ?_⟩
            · rw [show c + (j + 1) = c + 1 + j by omega]; exact hov'
            · simpa using hc'

/-- C5 counterexample: a row pair can make the row comparison raise
rather than produce the outcome list — the integer-aware validator
raises on a nan cell — so the claim does not hold for every pair of
rows under every covering validator array. -/
theorem claim5_counterexample :
    compare_a_row [Value.float PyFloat.nan] [Value.int 5] [some Validator.intv] =
      Except.error "ValueError: cannot convert float NaN to integer" := by decide

/-- C5 (amended): whenever the row comparison returns an outcome list
(no per-column validator call raises), that list consists of
min(len(row1), len(row2)) per-column outcomes — the validator verdict
at each zipped column, OMITTED where the covering array holds None —
followed by exactly |len(row1) − len(row2)| trailing LONGER outcomes
(row1 longer) or SHORTER outcomes (row2 longer), so its total length is
max(len(row1), len(row2)). -/
theorem claim5_theorem (row1 row2 : List Value) (varr : List (Option Validator))
    (l : List ComparisonResult) (h : compare_a_row row1 row2 varr = Except.ok l) :
    l.length = max row1.length row2.length ∧
    (row1.length ≥ row2.length →
      l.drop (min row1.length row2.length) =
        List.replicate (row1.length - row2.length) ComparisonResult.LONGER) ∧
    (row2.length ≥ row1.length →
      l.drop (min row1.length row2.length) =
        List.replicate (row2.length - row1.length) ComparisonResult.SHORTER) ∧
    (∀ i, i < min row1.length row2.length →
      ∃ ov, varr.get? i = some ov ∧
        compareCell ov ((row1.zip row2).getD i (Value.none, Value.none)).1
            ((row1.zip row2).getD i (Value.none, Value.none)).2 =
          Except.ok (l.getD i ComparisonResult.EQUALS)) := by
  unfold compare_a_row at h
  cases hc : compareRowCells varr 0 (row1.zip row2) with
  | error e =>
    rw [hc] at h
    simp only [bindErr] at h
    exact absurd h (by simp)
  | ok ds =>
    rw [hc] at h
    simp only [bindOk] at h
    obtain ⟨hlen, hcells⟩ := compareRowCells_spec (row1.zip row2) 0 varr ds hc
    rw [List.length_zip] at hlen
    have hmin : ds.length = min row1.length row2.length := hlen
    by_cases h1 : row1.length > row2.length
    · rw [if_pos h1] at h
      injection h with h
      subst h
      refine ⟨by simp [hmin]; omega, ?_, ?_, ?_⟩
      · intro _
        rw [← hmin, List.drop_left]
      · intro hge
        exact absurd hge (by omega)
      · intro i hi
        obtain ⟨ov, hov, hcell⟩ := hcells i (by rw [List.length_zip]; exact hi)
        refine ⟨ov, by simpa using hov, ?_⟩
        rw [hcell]
        congr 1
        rw [List.getD_append]
        omega
    · rw [if_neg h1] at h
      by_cases h2 : row2.length > row1.length
      · rw [if_pos h2] at h
        injection h with h
        subst h
        refine ⟨by simp [hmin]; omega, ?_, ?_, ?_⟩
        · intro hge
          exact absurd hge (by omega)
        · intro _
          rw [← hmin, List.drop_left]
        · intro i hi
          obtain ⟨ov, hov, hcell⟩ := hcells i (by rw [List.length_zip]; exact hi)
          refine ⟨ov, by simpa using hov, ?_⟩
          rw [hcell]
          congr 1
          rw [List.getD_append]
          omega
      · rw [if_neg h2] at h
        injection h with h
        subst h
        refine ⟨by omega, ?_, ?_, ?_⟩
        · intro _
          rw [← hmin, List.drop_of_length_le (le_refl _)]
          rw [show row1.length - row2.length = 0 by omega]
          rfl
        · intro _
          rw [← hmin, List.drop_of_length_le (le_refl _)]
          rw [show row2.length - row1.length = 0 by omega]
          rfl
        · intro i hi
          obtain ⟨ov, hov, hcell⟩ := hcells i (by rw [List.length_zip]; exact hi)
          exact ⟨ov, by simpa using hov, hcell⟩

/-- C5 witness: the claim's example — [a, b, c] against [a, b] under
strict equality yields two column outcomes and exactly one trailing
LONGER. -/
theorem claim5_witness :
    compare_a_row [Value.str "a", Value.str "b", Value.str "c"]
        [Value.str "a", Value.str "b"] (List.replicate 3 (some Validator.equal)) =
      Except.ok [ComparisonResult.EQUALS, ComparisonResult.EQUALS, ComparisonResult.LONGER] ∧
    ([ComparisonResult.EQUALS, ComparisonResult.EQUALS, ComparisonResult.LONGER].length =
      max 3 2) ∧
    [ComparisonResult.EQUALS, ComparisonResult.EQUALS, ComparisonResult.LONGER].drop (min 3 2) =
      List.replicate 1 ComparisonResult.LONGER :=
  ⟨by decide,
   (claim5_theorem [Value.str "a", Value.str "b", Value.str "c"]
      [Value.str "a", Value.str "b"] (List.replicate 3 (some Validator.equal))
      [ComparisonResult.EQUALS, ComparisonResult.EQUALS, ComparisonResult.LONGER]
      (by decide)).1,
   (claim5_theorem [Value.str "a", Value.str "b", Value.str "c"]
      [Value.str "a", Value.str "b"] (List.replicate 3 (some Validator.equal))
      [ComparisonResult.EQUALS, ComparisonResult.EQUALS, ComparisonResult.LONGER]
      (by decide)).2.1 (by decide)⟩

-- ============================================================
-- Claim C10 — structural outcomes in the diff consumer
-- ============================================================

theorem diffLoop_okay_false (s2 : ℕ) (sa : Bool) (r : ℕ) (row1 row2 : List Value) :
    ∀ (diffs : List ComparisonResult) (st : DiffLoopState) (c : ℕ),
      st.okay = false → (diffLoop s2 sa r row1 row2 st c diffs).okay = false := by
  intro diffs
  induction diffs with
  | nil => intro st c h; exact h
  | cons d tl ih =>
    intro st c h
    unfold diffLoop
    apply ih
    simp [diffStep, h]

theorem diffLoop_okay_structural (s2 : ℕ) (sa : Bool) (r : ℕ) (row1 row2 : List Value) :
    ∀ (diffs : List ComparisonResult) (st : DiffLoopState) (c i : ℕ),
      i < diffs.length →
      (forceResult s2 (c + i) (diffs.getD i ComparisonResult.EQUALS)).ok = false →
      (diffLoop s2 sa r row1 row2 st c diffs).okay = false := by
  intro diffs
  induction diffs with
  | nil => intro st c i hi _; exact absurd hi (by simp)
  | cons d tl ih =>
    intro st c i hi hok
    cases i with
    | zero =>
      unfold diffLoop
      apply diffLoop_okay_false
      simp only [List.getD_cons_zero, Nat.add_zero] at hok
      simp [diffStep, hok]
    | succ j =>
      unfold diffLoop
      apply ih _ (c + 1) j (by simpa using hi)
      rw [show c + 1 + j = c + (j + 1) by omega]
      simpa using hok

theorem diffLoop_adds_foul (s2 : ℕ) (sa : Bool) (r : ℕ) (row1 row2 : List Value) :
    ∀ (diffs : List ComparisonResult) (st : DiffLoopState) (c : ℕ)
      (e : ℕ × ℕ × Value × Value × ComparisonResult),
      e ∈ (diffLoop s2 sa r row1 row2 st c diffs).summaryAdds →
      e ∈ st.summaryAdds ∨ e.2.2.2.2.foul = true := by
  intro diffs
  induction diffs with
  | nil => intro st c e he; exact Or.inl he
  | cons d tl ih =>
    intro st c e he
    unfold diffLoop at he
    rcases ih _ _ e he with hin | hf
    · by_cases hcond :
          (sa && (forceResult s2 c d).foul) = true
      · simp only [diffStep, if_pos hcond] at hin
        rcases List.mem_append.mp hin with h | h
        · exact Or.inl h
        · have he' : e = (r, c + 1, row1.getD c Value.none, row2.getD c Value.none,
              forceResult s2 c d) := by simpa using h
          subst he'
          exact Or.inr (by simpa using (Bool.and_eq_true _ _ ▸ hcond).2)
      · simp only [diffStep, if_neg hcond] at hin
        exact Or.inl hin
    · exact Or.inr hf

/-- C10: in every `DiffConsumer.diff` call with an attached summary,
(1) every cell recorded in the summary carries a DIFFERENT or CORRUPTED
outcome — structural SHORTER / LONGER outcomes (including those forced
to LONGER beyond the reference table's original column count) are never
recorded, because only DIFFERENT and CORRUPTED are foul — and (2) a
SHORTER or LONGER outcome at any column (after the forcing) makes the
row not fully acceptable, so a non-empty measured row is inserted into
the reference table. -/
theorem claim10_theorem (s2 : ℕ) (r : ℕ) (i1 : ℤ) (row1 : List Value) (i2 : ℤ)
    (row2 : List Value) (diffs : List ComparisonResult) :
    (∀ e ∈ (DiffConsumer.diff s2 true r i1 row1 i2 row2 diffs).summaryAdds,
        e.2.2.2.2 = ComparisonResult.DIFFERENT ∨ e.2.2.2.2 = ComparisonResult.CORRUPTED) ∧
    ((∃ c, c < diffs.length ∧
        (forceResult s2 c (diffs.getD c ComparisonResult.EQUALS) = ComparisonResult.SHORTER ∨
         forceResult s2 c (diffs.getD c ComparisonResult.EQUALS) = ComparisonResult.LONGER)) →
      (DiffConsumer.diff s2 true r i1 row1 i2 row2 diffs).okay = false ∧
      (row1 ≠ [] → (DiffConsumer.diff s2 true r i1 row1 i2 row2 diffs).inserted = true)) := by
  constructor
  · intro e he
    rcases diffLoop_adds_foul s2 true r row1 row2 diffs ⟨true, [], [], []⟩ 0 e he with h | h
    · exact absurd h (by simp)
    · exact (foul_iff _).mp h
  · rintro ⟨c, hc, hstruct⟩
    have hok : (forceResult s2 (0 + c) (diffs.getD c ComparisonResult.EQUALS)).ok = false := by
      rw [Nat.zero_add]
      rcases hstruct with h | h <;> rw [h] <;> rfl
    have hfalse : (diffLoop s2 true r row1 row2 ⟨true, [], [], []⟩ 0 diffs).okay = false :=
      diffLoop_okay_structural s2 true r row1 row2 diffs ⟨true, [], [], []⟩ 0 c hc hok
    refine ⟨hfalse, ?_⟩
    intro hrow
    show (!(diffLoop s2 true r row1 row2 ⟨true, [], [], []⟩ 0 diffs).okay && !row1.isEmpty) = true
    rw [hfalse]
    simp [List.isEmpty_iff, hrow]

/-- C10 witness: a row pair with a SHORTER outcome — the row is marked
not okay and the non-empty measured row is inserted. -/
theorem claim10_witness :
    (DiffConsumer.diff 5 true 3 1 [Value.int 7] 2 [Value.int 7, Value.int 8]
        [ComparisonResult.EQUALS, ComparisonResult.SHORTER]).okay = false ∧
    (DiffConsumer.diff 5 true 3 1 [Value.int 7] 2 [Value.int 7, Value.int 8]
        [ComparisonResult.EQUALS, ComparisonResult.SHORTER]).inserted = true :=
  ⟨((claim10_theorem 5 3 1 [Value.int 7] 2 [Value.int 7, Value.int 8]
      [ComparisonResult.EQUALS, ComparisonResult.SHORTER]).2
      ⟨1, by decide, Or.inl (by decide)⟩).1,
   ((claim10_theorem 5 3 1 [Value.int 7] 2 [Value.int 7, Value.int 8]
      [ComparisonResult.EQUALS, ComparisonResult.SHORTER]).2
      ⟨1, by decide, Or.inl (by decide)⟩).2 (by decide)⟩

-- ============================================================
-- Claim C9 — streaming mode agrees with bulk mode
-- ============================================================

theorem compareRowsFrom_mode_agree (varr : List (Option Validator)) :
    ∀ (n r : ℕ) (e1 e2 : EnumState) (cs : List ConsumedRow) (lF : List RowTuple),
      cs.map ConsumedRow.differences = lF.map RowTuple.differences →
      Except.map (fun a => a.consumed.map ConsumedRow.differences)
          (compareRowsFrom varr true r n e1 e2 ⟨Option.none, cs⟩) =
      Except.map (fun a => (a.all_differences.getD []).map RowTuple.differences)
          (compareRowsFrom varr false r n e1 e2 ⟨some lF, []⟩) := by
  intro n
  induction n with
  | zero =>
    intro r e1 e2 cs lF h
    simpa [compareRowsFrom, Except.map] using h
  | succ m ih =>
    intro r e1 e2 cs lF h
    rcases h1 : enumNext e1 with ⟨⟨i1, row1⟩, e1'⟩
    rcases h2 : enumNext e2 with ⟨⟨i2, row2⟩, e2'⟩
    unfold compareRowsFrom compare_next
    rw [h1, h2]
    cases hd : compare_a_row row1 row2 varr with
    | error e => simp [hd, bindErr, Except.map]
    | ok d =>
      simp only [hd, bindOk]
      simp only [if_pos rfl, Bool.false_eq_true, if_neg (by decide : ¬ (false = true)),
        Option.map_some]
      exact ih (r + 1) e1' e2' (cs ++ [⟨r, i1, row1, i2, row2, d⟩])
        (lF ++ [⟨i1, row1, i2, row2, d⟩]) (by simp [h])

/-- C9: for every pair of engines and every validator array, running
the comparison in streaming mode with a purely collecting consumer
yields exactly the outcome lists, in order, of the tuples returned by
bulk mode on the same inputs (and the two modes agree on raising as
well, since the result projections are compared as whole `Except`
values). -/
theorem claim9_theorem (eng1 eng2 : Engine) (varr : List (Option Validator)) :
    Except.map (fun a => a.consumed.map ConsumedRow.differences)
        (compare_sheets_by_enum eng1 eng2 varr true) =
    Except.map (fun a => (a.all_differences.getD []).map RowTuple.differences)
        (compare_sheets_by_enum eng1 eng2 varr false) := by
  rcases h1 : enumNext (EnumState.init eng1) with ⟨⟨i1, row1⟩, e1'⟩
  rcases h2 : enumNext (EnumState.init eng2) with ⟨⟨i2, row2⟩, e2'⟩
  unfold compare_sheets_by_enum compare_next
  simp only [h1, h2]
  cases hd : compare_a_row row1 row2
      (calculate_validator_array eng2.maxCol Option.none (some Validator.equal)) with
  | error e => simp [hd, bindErr, Except.map]
  | ok d =>
    simp only [hd, bindOk]
    simp only [if_pos rfl, Bool.false_eq_true, if_neg (by decide : ¬ (false = true)),
      Option.map_some]
    exact compareRowsFrom_mode_agree varr _ 2 e1' e2'
      [⟨1, i1, row1, i2, row2, d⟩] [⟨i1, row1, i2, row2, d⟩] (by simp)

-- ============================================================
-- Claim C1 — top-level diff entry point
-- ============================================================

theorem resolveHeaderLoop_ok (reg : ValidatorRegistry) :
    ∀ (rest : List Value) (index : ℕ) (validators : List (Option Validator)),
      index + rest.length ≤ validators.length →
      ∃ l, resolveHeaderLoop reg index rest validators = Except.ok l := by
  intro rest
  induction rest with
  | nil => intro index validators _; exact ⟨validators, rfl⟩
  | cons hd tl ih =>
    intro index validators h
    unfold resolveHeaderLoop listAssign
    have hlt : index < validators.length := by
      simp only [List.length_cons] at h
      omega
    rw [if_pos hlt]
    simp only [bindOk]
    exact ih (index + 1) (validators.set index (reg.get_validator hd index))
      (by simp only [List.length_set, List.length_cons] at h ⊢; omega)

theorem resolve_validators_ok (reg : ValidatorRegistry) (header_row : List Value)
    (max_col : ℕ) (h : header_row.length ≤ max_col) :
    ∃ l, reg.resolve_validators header_row max_col = Except.ok l := by
  unfold ValidatorRegistry.resolve_validators
  obtain ⟨l, hl⟩ := resolveHeaderLoop_ok reg header_row 0
    (List.replicate max_col reg.default_validator) (by simpa using h)
  simp only [hl, bindOk]
  exact ⟨_, rfl⟩

theorem get_row_values_length (e : Engine) (r : ℕ) :
    (e.get_row_values r).length = e.maxCol := by
  simp [Engine.get_row_values]

/-- C1 (code evaluation): for every pair of engines whose reference
side is writable, `differentiate_sheets_by_ws` raises a TypeError
before comparing a single row, for every value of the has_header flag:
the body of `DiffConsumer.compare_sheets_consume_diff` passes the
keyword `has_header` to `compare_sheets_by_enum`, whose parameter list
(`enum1`, `enum2`, `validator_arr`, `consumer`) has no such name, so
the keyword binding fails.  The consumer-mode comparison therefore
never runs to completion, and no flag can control the row-1 treatment
(which `compare_sheets_by_enum` applies unconditionally). -/
theorem claim1_theorem (eng1 eng2 : Engine) (has_header : Bool)
    (registry : ValidatorRegistry) (summaryAttached : Bool)
    (h1 : eng2.engine_readonly = false) (h2 : eng2.readonly = false) :
    differentiate_sheets_by_ws eng1 eng2 has_header registry summaryAttached =
      Except.error
        "TypeError: compare_sheets_by_enum() got an unexpected keyword argument has_header" := by
  unfold differentiate_sheets_by_ws
  rw [h1, h2]
  simp only [Bool.false_eq_true, if_neg (by decide : ¬ False)]
  obtain ⟨l, hl⟩ := resolve_validators_ok registry (eng2.get_row_values 1)
    (max eng1.maxCol eng2.maxCol)
    (by rw [get_row_values_length]; exact le_max_right _ _)
  rw [hl]
  simp only [bindOk]
  rfl

/-- C1 witness: the TypeError at two concrete writable 1×1 engines. -/
theorem claim1_witness :
    differentiate_sheets_by_ws ⟨[[Value.int 1]], 1, false, false⟩
        ⟨[[Value.int 1]], 1, false, false⟩ true ⟨[], [], Option.none⟩ false =
      Except.error
        "TypeError: compare_sheets_by_enum() got an unexpected keyword argument has_header" :=
  claim1_theorem ⟨[[Value.int 1]], 1, false, false⟩ ⟨[[Value.int 1]], 1, false, false⟩
    true ⟨[], [], Option.none⟩ false rfl rfl

-- ============================================================
-- Claim C8 — summary by header array
-- ============================================================

/-- Count stored under a key in an insertion-ordered count map
(absent keys count 0, as in a Python dict snapshot). -/
def lookupCount (m : List (String × ℕ)) (k : String) : ℕ :=
  ((m.find? (fun p => p.1 == k)).map (·.2)).getD 0

/-- Specification-side count: how many recorded cells of the summary
carry the outcome named `nm` at column `col`. -/
def recordedCount (s : ComparisonSummary) (nm : String) (col : ℕ) : ℕ :=
  (s.results.map (fun b =>
    if b.1.name = nm then (b.2.filter (fun c => c.col == col)).length else 0)).sum

/-- A sequence of `add` calls applied to a summary. -/
def applyAdds (ops : List (ℕ × ℕ × Value × Value × ComparisonResult))
    (s : ComparisonSummary) : ComparisonSummary :=
  ops.foldl (fun s o => s.add o.1 o.2.1 o.2.2.1 o.2.2.2.1 o.2.2.2.2) s

theorem applyAdds_header_values (ops : List (ℕ × ℕ × Value × Value × ComparisonResult)) :
    ∀ s, (applyAdds ops s).header_values = s.header_values := by
  induction ops with
  | nil => intro s; rfl
  | cons hd tl ih => intro s; exact ih _

theorem lookupCount_incKey (m : List (String × ℕ)) (k nm : String) :
    lookupCount (incKey m k) nm = lookupCount m nm + (if k = nm then 1 else 0) := by
  induction m with
  | nil =>
    by_cases h : k = nm
    · subst h; simp [incKey, lookupCount]
    · have hb : (k == nm) = false := by simp [h]
      simp [incKey, lookupCount, List.find?, hb, h]
  | cons hd tl ih =>
    obtain ⟨k', n⟩ := hd
    by_cases h2 : k' = nm
    · subst h2
      by_cases h1 : k' = k
      · subst h1
        simp [incKey, lookupCount, List.find?]
      · have hkn : ¬ k = k' := fun he => h1 he.symm
        simp [incKey, if_neg h1, lookupCount, List.find?, if_neg hkn]
    · have hb : (k' == nm) = false := by simp [h2]
      by_cases h1 : k' = k
      · subst h1
        simp [incKey, lookupCount, List.find?, hb, h2]
      · simp only [incKey, if_neg h1]
        simpa [lookupCount, List.find?, hb] using ih

theorem summaryStep_length (nm : String) (arr : List (List (String × ℕ)))
    (cell : SummaryCell) : (summaryStep nm arr cell).length = arr.length := by
  unfold summaryStep
  split
  · simp
  · rfl

theorem lookupCount_summaryStep (nm nm' : String) (arr : List (List (String × ℕ)))
    (cell : SummaryCell) (j : ℕ) (hj : j < arr.length) :
    lookupCount ((summaryStep nm arr cell).getD j []) nm' =
      lookupCount (arr.getD j []) nm' + (if cell.col = j + 1 ∧ nm = nm' then 1 else 0) := by
  unfold summaryStep
  by_cases hc : cell.col = j + 1
  · have hcond : (1 ≤ cell.col && cell.col ≤ arr.length) = true := by
      rw [hc]; simp; omega
    rw [if_pos hcond, hc]
    simp only [Nat.add_sub_cancel]
    have hget : ((arr.set j (incKey (arr.getD j []) nm)).getD j []) =
        incKey (arr.getD j []) nm := by
      rw [List.getD_eq_getElem?_getD, List.getElem?_set_self (by exact hj)]
      simp
    rw [hget, lookupCount_incKey]
    by_cases hnm : nm = nm' <;> simp [hnm, hc]
  · by_cases hcond : (1 ≤ cell.col && cell.col ≤ arr.length) = true
    · rw [if_pos hcond]
      have h1 : 1 ≤ cell.col := by
        rcases Bool.and_eq_true _ _ ▸ hcond with ⟨ha, _⟩
        simpa using ha
      have hne : cell.col - 1 ≠ j := by omega
      have hget : ((arr.set (cell.col - 1) (incKey (arr.getD (cell.col - 1) []) nm)).getD j []) =
          arr.getD j [] := by
        rw [List.getD_eq_getElem?_getD, List.getElem?_set_ne hne, ← List.getD_eq_getElem?_getD]
      rw [hget]
      simp [hc]
    · rw [if_neg hcond]
      simp [hc]

theorem foldCells_length (nm : String) :
    ∀ (cells : List SummaryCell) (arr : List (List (String × ℕ))),
      (cells.foldl (summaryStep nm) arr).length = arr.length := by
  intro cells
  induction cells with
  | nil => intro arr; rfl
  | cons hd tl ih =>
    intro arr
    simp only [List.foldl_cons]
    rw [ih, summaryStep_length]

theorem lookupCount_foldCells (nm nm' : String) :
    ∀ (cells : List SummaryCell) (arr : List (List (String × ℕ))) (j : ℕ),
      j < arr.length →
      lookupCount ((cells.foldl (summaryStep nm) arr).getD j []) nm' =
        lookupCount (arr.getD j []) nm' +
          (if nm = nm' then (cells.filter (fun c => c.col == j + 1)).length else 0) := by
  intro cells
  induction cells with
  | nil => intro arr j _; simp
  | cons hd tl ih =>
    intro arr j hj
    simp only [List.foldl_cons]
    rw [ih (summaryStep nm arr hd) j (by rw [summaryStep_length]; exact hj)]
    rw [lookupCount_summaryStep nm nm' arr hd j hj]
    by_cases hc : hd.col = j + 1 <;> by_cases hnm : nm = nm' <;>
      simp [hc, hnm, List.filter_cons] <;> omega

theorem bucketsFold_length :
    ∀ (buckets : List (ComparisonResult × List SummaryCell))
      (arr : List (List (String × ℕ))),
      (buckets.foldl (fun arr bucket => bucket.2.foldl (summaryStep bucket.1.name) arr)
          arr).length = arr.length := by
  intro buckets
  induction buckets with
  | nil => intro arr; rfl
  | cons hd tl ih =>
    intro arr
    simp only [List.foldl_cons]
    rw [ih, foldCells_length]

theorem lookupCount_bucketsFold (nm' : String) :
    ∀ (buckets : List (ComparisonResult × List SummaryCell))
      (arr : List (List (String × ℕ))) (j : ℕ),
      j < arr.length →
      lookupCount ((buckets.foldl
            (fun arr bucket => bucket.2.foldl (summaryStep bucket.1.name) arr) arr).getD j [])
          nm' =
        lookupCount (arr.getD j []) nm' +
          (buckets.map (fun b =>
            if b.1.name = nm' then (b.2.filter (fun c => c.col == j + 1)).length else 0)).sum := by
  intro buckets
  induction buckets with
  | nil => intro arr j _; simp
  | cons hd tl ih =>
    intro arr j hj
    simp only [List.foldl_cons, List.map_cons, List.sum_cons]
    rw [ih (hd.2.foldl (summaryStep hd.1.name) arr) j (by rw [foldCells_length]; exact hj)]
    rw [lookupCount_foldCells hd.1.name nm' hd.2 arr j hj]
    omega

/-- C8 counterexample: the claim quantifies over every state in which
headers have been set, but the source tests the header list's truth
value, so setting an empty header list still raises — the call does not
return a (zero-column) count-map array. -/
theorem claim8_counterexample :
    (ComparisonSummary.init.set_header_values []).summary_by_header_array =
      Except.error
        "ValueError: header_values must be set before calling summary_by_header_array." := by
  rfl

/-- C8 (amended): `summary_by_header_array` raises a usage error
whenever `set_header_values` was never called (the freshly constructed
summary, however many `add` calls were made, has an empty header list)
— and also when it was called with an empty list; when a non-empty
header list is set, it returns one count map per header column, where
the count stored for an outcome name at column j+1 equals the number of
recorded (row, col, value1, value2, outcome) entries with col = j+1 and
that outcome name — only columns in [1, number of headers] are counted;
after setting 3 header names and adding one DIFFERENT at column 2 the
result is [{}, {"DIFFERENT": 1}, {}]. -/
theorem claim8_theorem :
    (∀ (ops : List (ℕ × ℕ × Value × Value × ComparisonResult)),
      (applyAdds ops ComparisonSummary.init).summary_by_header_array =
        Except.error
          "ValueError: header_values must be set before calling summary_by_header_array.") ∧
    (∀ (s : ComparisonSummary), s.header_values ≠ [] →
      ∃ arr, s.summary_by_header_array = Except.ok arr ∧
        arr.length = s.header_values.length ∧
        ∀ j nm, j < arr.length →
          lookupCount (arr.getD j []) nm = recordedCount s nm (j + 1)) ∧
    ((ComparisonSummary.init.set_header_values
        [Value.str "A", Value.str "B", Value.str "C"]).add 5 2 (Value.int 1) (Value.int 2)
        ComparisonResult.DIFFERENT).summary_by_header_array =
      Except.ok [[], [("DIFFERENT", 1)], []] := by
  refine ⟨?_, ?_, by decide⟩
  · intro ops
    unfold ComparisonSummary.summary_by_header_array
    rw [applyAdds_header_values ops ComparisonSummary.init]
    rfl
  · intro s hs
    unfold ComparisonSummary.summary_by_header_array
    rw [if_neg (by simpa [List.isEmpty_iff] using hs)]
    refine ⟨_, rfl, ?_, ?_⟩
    · rw [bucketsFold_length, List.length_replicate]
    · intro j nm hj
      rw [bucketsFold_length, List.length_replicate] at hj
      rw [lookupCount_bucketsFold nm s.results (List.replicate s.header_values.length []) j
        (by simpa using hj)]
      rw [List.getD_eq_getElem?_getD, List.getElem?_replicate, if_pos hj]
      simp [lookupCount, recordedCount]

/-- C8 witness: the counting specification at the concrete summary with
3 headers and one DIFFERENT at column 2. -/
theorem claim8_witness :
    ∃ arr, ((ComparisonSummary.init.set_header_values
        [Value.str "A", Value.str "B", Value.str "C"]).add 5 2 (Value.int 1) (Value.int 2)
        ComparisonResult.DIFFERENT).summary_by_header_array = Except.ok arr ∧
      arr.length = 3 ∧
      ∀ j nm, j < arr.length →
        lookupCount (arr.getD j []) nm =
          recordedCount ((ComparisonSummary.init.set_header_values
            [Value.str "A", Value.str "B", Value.str "C"]).add 5 2 (Value.int 1) (Value.int 2)
            ComparisonResult.DIFFERENT) nm (j + 1) :=
  claim8_theorem.2.1
    ((ComparisonSummary.init.set_header_values
      [Value.str "A", Value.str "B", Value.str "C"]).add 5 2 (Value.int 1) (Value.int 2)
      ComparisonResult.DIFFERENT) (by decide)
